import Mathlib

/-!
Shallow embedding of the cypher-cam surveillance pipeline
(`src/detectors/motion_detector.py`, `src/detectors/noise_detector.py`,
`src/utils/email_alerts.py`, `src/recording/video_recorder.py`,
`src/recording/audio_recorder.py`, `src/app.py`).

Timestamps and scalar measurements are modelled as rationals; numpy and
OpenCV library calls (grayscale conversion, thresholding, contour
extraction, the Euclidean norm, image drawing) are external collaborators
and are modelled as abstract operations supplied to the embedded
functions, while all control flow and state updates of the repository's
own Python code are translated concretely.
-/

/-- `NoiseDetector` state (`noise_detector.py`). The audio block type `β`
is abstract; the queue stores `(block, volume)` pairs, front of list =
front of the FIFO. -/
structure NoiseDetector (β : Type) where
  threshold : ℚ
  noise_detected : Bool
  noise_count : ℕ
  audio_queue : List (β × ℚ)
deriving DecidableEq

/-- `NoiseDetector.__init__` with a given threshold. -/
def NoiseDetector.init (β : Type) (threshold : ℚ) : NoiseDetector β :=
  { threshold := threshold, noise_detected := false, noise_count := 0, audio_queue := [] }

/-- `NoiseDetector.audio_callback`: `volume_norm = np.linalg.norm(indata) * 10`;
the flag is set iff `volume_norm > threshold`; the `(data, volume)` pair is
always enqueued. `norm` models `np.linalg.norm`. -/
def NoiseDetector.audio_callback {β : Type} (norm : β → ℚ)
    (s : NoiseDetector β) (indata : β) : NoiseDetector β :=
  let volume_norm := norm indata * 10
  let s1 :=
    if volume_norm > s.threshold then
      { s with noise_detected := true, noise_count := s.noise_count + 1 }
    else
      { s with noise_detected := false }
  { s1 with audio_queue := s1.audio_queue ++ [(indata, volume_norm)] }

/-- `NoiseDetector.get_current_noise_level`: pops one `(data, volume)` pair
from the FIFO and returns the volume, or returns `0` on an empty queue. -/
def NoiseDetector.get_current_noise_level {β : Type} (s : NoiseDetector β) :
    ℚ × NoiseDetector β :=
  match s.audio_queue with
  | [] => (0, s)
  | (_, volume) :: rest => (volume, { s with audio_queue := rest })

/-- Fold a sequence of audio blocks through `audio_callback`, recording the
`noise_detected` flag after each block. -/
def NoiseDetector.runBlocks {β : Type} (norm : β → ℚ)
    (s : NoiseDetector β) (blocks : List β) : List Bool × NoiseDetector β :=
  match blocks with
  | [] => ([], s)
  | b :: bs =>
      let s1 := NoiseDetector.audio_callback norm s b
      let (flags, s2) := NoiseDetector.runBlocks norm s1 bs
      (s1.noise_detected :: flags, s2)

/-- One queued alert of `EmailAlertSystem` (`email_alerts.py`): the dict
pushed by `send_alert`. The frame type `φ` is abstract. -/
structure Alert (φ : Type) where
  «type» : String
  frame : Option φ
  message : String
  timestamp : ℚ
deriving DecidableEq

/-- `EmailAlertSystem` state relevant to `send_alert` (`email_alerts.py`):
the enabled flag, the worker queue (front of list = front), the cooldown
and the time of the last successfully scheduled alert. -/
structure EmailAlertSystem (φ : Type) where
  enabled : Bool
  alert_queue : List (Alert φ)
  alert_cooldown : ℚ
  last_alert_time : ℚ
deriving DecidableEq

/-- `EmailAlertSystem.send_alert` at wall-clock time `now`: returns
unchanged state when disabled or when `now - last_alert_time <
alert_cooldown`; otherwise enqueues the alert and sets `last_alert_time :=
now`. -/
def EmailAlertSystem.send_alert {φ : Type} (s : EmailAlertSystem φ)
    (now : ℚ) (alert_type : String) (frame : Option φ) (message : String) :
    EmailAlertSystem φ :=
  if ¬ s.enabled then s
  else if now - s.last_alert_time < s.alert_cooldown then s
  else
    { s with
      alert_queue := s.alert_queue ++ [⟨alert_type, frame, message, now⟩],
      last_alert_time := now }

/-- Fold a sequence of `send_alert` calls `(now, type, frame, message)`
through the alert system. -/
def EmailAlertSystem.runCalls {φ : Type} (s : EmailAlertSystem φ)
    (calls : List (ℚ × String × Option φ × String)) : EmailAlertSystem φ :=
  calls.foldl (fun st c => EmailAlertSystem.send_alert st c.1 c.2.1 c.2.2.1 c.2.2.2) s

/-- Two queued alerts are separated by at least the cooldown `c`. -/
def alertGap (c : ℚ) {φ : Type} (a b : Alert φ) : Prop :=
  a.timestamp + c ≤ b.timestamp

/-- Invariant carried through `runCalls`: queued timestamps are pairwise
separated by the cooldown, and none exceeds `last_alert_time`. -/
def alertInv {φ : Type} (s : EmailAlertSystem φ) : Prop :=
  s.alert_queue.Pairwise (alertGap s.alert_cooldown) ∧
    ∀ a ∈ s.alert_queue, a.timestamp ≤ s.last_alert_time


/-- A contour as produced by `cv2.findContours`, reduced to the two
attributes the code reads: `cv2.contourArea` and `cv2.boundingRect`. -/
structure Contour where
  area : ℚ
  box : ℤ × ℤ × ℤ × ℤ
deriving DecidableEq

/-- The OpenCV operations `MotionDetector.detect` calls, over an abstract
grayscale-image type `γ` and an abstract display-frame type `φ`:
`grayBlur` is `cvtColor` + `GaussianBlur`; `threshPipeline thr first gray`
is `absdiff` + `threshold(thr)` + `dilate`; `findContours` extracts the
contours of the mask; the remaining operations are the drawing calls. -/
structure CVOps (γ φ : Type) where
  grayBlur : φ → γ
  threshPipeline : ℚ → γ → γ → γ
  findContours : γ → List Contour
  applyHeatmap : γ → φ → φ
  drawBox : ℤ × ℤ × ℤ × ℤ → φ → φ
  drawPoint : ℤ × ℤ → φ → φ
  drawMotionText : ℚ → φ → φ

/-- `MotionDetector` state (`motion_detector.py`). -/
structure MotionDetector (γ : Type) where
  threshold : ℚ
  min_area : ℚ
  first_frame : Option γ
  motion_detected : Bool
  motion_count : ℕ
  motion_history : List ℚ
  total_motion_area : ℚ
  motion_regions : List (ℤ × ℤ)
deriving DecidableEq

/-- `MotionDetector.__init__(threshold, min_area)`. -/
def MotionDetector.init (γ : Type) (threshold min_area : ℚ) : MotionDetector γ :=
  { threshold := threshold, min_area := min_area, first_frame := none,
    motion_detected := false, motion_count := 0, motion_history := [],
    total_motion_area := 0, motion_regions := [] }

/-- The tuple returned by `MotionDetector.detect`. -/
structure MotionResult (φ : Type) where
  detected : Bool
  total_area : ℚ
  frame : φ
  boxes : List (ℤ × ℤ × ℤ × ℤ)
deriving DecidableEq

/-- `self.motion_regions = self.motion_regions[-1000:]` when the list has
grown past 1000 points. -/
def trimRegions (l : List (ℤ × ℤ)) : List (ℤ × ℤ) :=
  if l.length > 1000 then l.drop (l.length - 1000) else l

/-- Centroid `(box[0] + box[2]//2, box[1] + box[3]//2)` of a bounding box. -/
def boxCentroid (b : ℤ × ℤ × ℤ × ℤ) : ℤ × ℤ :=
  (b.1 + b.2.2.1 / 2, b.2.1 + b.2.2.2 / 2)

/-- `MotionDetector.detect(frame, show_heatmap)` at wall-clock time `now`
(`time.time()` appended to `motion_history`). Returns the
`(motion_detected, total_area, frame, motion_boxes)` tuple and the updated
detector state. -/
def MotionDetector.detect {γ φ : Type} (ops : CVOps γ φ) (now : ℚ)
    (s : MotionDetector γ) (frame : φ) (show_heatmap : Bool) :
    MotionResult φ × MotionDetector γ :=
  let gray := ops.grayBlur frame
  match s.first_frame with
  | none =>
      (⟨false, 0, frame, []⟩, { s with first_frame := some gray })
  | some ff =>
      let thresh := ops.threshPipeline s.threshold ff gray
      let contours := ops.findContours thresh
      let frame1 := if show_heatmap then ops.applyHeatmap thresh frame else frame
      let qualifying := contours.filter fun c => ¬ c.area < s.min_area
      let motion_detected := ! qualifying.isEmpty
      let total_area := (qualifying.map Contour.area).sum
      let motion_boxes := qualifying.map Contour.box
      let frame2 := qualifying.foldl (fun f c => ops.drawBox c.box f) frame1
      let s1 :=
        if motion_detected then
          { s with
            motion_count := s.motion_count + 1,
            motion_history := s.motion_history ++ [now],
            total_motion_area := s.total_motion_area + total_area,
            motion_regions :=
              trimRegions (s.motion_regions ++ motion_boxes.map boxCentroid) }
        else s
      let frame3 :=
        if motion_detected then
          ops.drawMotionText total_area
            (s1.motion_regions.foldl (fun f p => ops.drawPoint p f) frame2)
        else frame2
      let s2 :=
        if s1.motion_count % 30 = 0 then { s1 with first_frame := some gray } else s1
      (⟨motion_detected, total_area, frame3, motion_boxes⟩, s2)

/-- `VideoRecorder` state (`video_recorder.py`); `video_writer` records
whether a writer object is held and whether it reported `isOpened`. -/
structure VideoRecorder where
  recording : Bool
  video_writer : Option Bool
  current_recording : Option String
  recording_start_time : Option ℚ
  recording_reason : Option String
deriving DecidableEq

/-- `VideoRecorder.__init__`. -/
def VideoRecorder.init : VideoRecorder :=
  { recording := false, video_writer := none, current_recording := none,
    recording_start_time := none, recording_reason := none }

/-- `VideoRecorder.start_recording(frame, reason)` at wall-clock time `now`
with timestamp string `stamp`; `writer_opens` models whether
`cv2.VideoWriter(...).isOpened()` succeeds. Returns the filename (or
`None`) and the updated state. -/
def VideoRecorder.start_recording (s : VideoRecorder) (now : ℚ)
    (stamp : String) (reason : String) (writer_opens : Bool) :
    Option String × VideoRecorder :=
  if s.recording then (none, s)
  else
    let filename := "recordings/recording_" ++ reason ++ "_" ++ stamp ++ ".avi"
    if ¬ writer_opens then (none, { s with video_writer := some false })
    else
      (some filename,
        { s with
          video_writer := some true,
          recording := true,
          current_recording := some filename,
          recording_start_time := some now,
          recording_reason := some reason })

/-- `VideoRecorder.stop_recording()` at wall-clock time `now`: releases
the writer, clears `recording`, and returns `(filename, duration)` or
`(None, 0)`. -/
def VideoRecorder.stop_recording (s : VideoRecorder) (now : ℚ) :
    (Option String × ℚ) × VideoRecorder :=
  let s1 := { s with video_writer := none, recording := false }
  match s1.current_recording with
  | some f =>
      let duration :=
        match s1.recording_start_time with
        | some t0 => if t0 = 0 then 0 else now - t0
        | none => 0
      ((some f, duration),
        { s1 with current_recording := none, recording_start_time := none })
  | none => ((none, 0), s1)

/-- `AudioRecorder` state (`audio_recorder.py`); blocks of type `α`. -/
structure AudioRecorder (α : Type) where
  recording : Bool
  frames : List α
deriving DecidableEq

/-- `AudioRecorder.start_recording()`. -/
def AudioRecorder.start_recording {α : Type} (s : AudioRecorder α) : AudioRecorder α :=
  { s with recording := true, frames := [] }

/-- `AudioRecorder.stop_recording()`: clears `recording` and returns the
saved filename when any frames were accumulated (`save_ok` models the
`wave`-file write succeeding with timestamp string `stamp`). -/
def AudioRecorder.stop_recording {α : Type} (s : AudioRecorder α)
    (stamp : String) (save_ok : Bool) : Option String × AudioRecorder α :=
  let s1 := { s with recording := false }
  if ¬ s1.frames.isEmpty then
    (if save_ok then some ("recordings/audio_" ++ stamp ++ ".wav") else none, s1)
  else (none, s1)

/-- `CypherCam.handle_event_recording(event_type, frame)` (`app.py`):
starts video and audio recording when the per-event record setting is on,
no recording is active, and `auto_record` (continuous mode) is off. -/
def handle_event_recording {α : Type} (record_on_event auto_record : Bool)
    (vr : VideoRecorder) (ar : AudioRecorder α) (now : ℚ) (stamp : String)
    (event_type : String) (writer_opens : Bool) :
    VideoRecorder × AudioRecorder α :=
  if record_on_event ∧ ¬ vr.recording ∧ ¬ auto_record then
    ((VideoRecorder.start_recording vr now stamp event_type writer_opens).2,
      AudioRecorder.start_recording ar)
  else (vr, ar)

/-- `CypherCam.check_recording_timeout()` (`app.py`): in non-continuous
mode with a recording active, stops video and audio when the time since
the last motion event and the time since the last noise event both exceed
the configured timeout (`recording_duration`); a `None` last-event time is
treated as `0` (Python `or 0`). -/
def check_recording_timeout {α : Type} (auto_record : Bool) (timeout : ℚ)
    (last_motion_time last_noise_time : Option ℚ) (now : ℚ)
    (vr : VideoRecorder) (ar : AudioRecorder α) (stamp : String) (save_ok : Bool) :
    VideoRecorder × AudioRecorder α :=
  if ¬ auto_record ∧ vr.recording then
    let time_since_motion := now - last_motion_time.getD 0
    let time_since_noise := now - last_noise_time.getD 0
    if time_since_motion > timeout ∧ time_since_noise > timeout then
      ((VideoRecorder.stop_recording vr now).2,
        (AudioRecorder.stop_recording ar stamp save_ok).2)
    else (vr, ar)
  else (vr, ar)

/-- Concrete OpenCV operations for the white-square scenario: frames are
numbered, frame `1` segments into a single 40×40 contour of area 1600 at
`(10, 10)`, and all drawing is the identity. -/
def scenarioOps : CVOps ℕ ℕ :=
  { grayBlur := fun f => f
    threshPipeline := fun _ _ g => g
    findContours := fun g => if g = 1 then [⟨1600, (10, 10, 40, 40)⟩] else []
    applyHeatmap := fun _ f => f
    drawBox := fun _ f => f
    drawPoint := fun _ f => f
    drawMotionText := fun _ f => f }

/-- Concrete OpenCV operations under which no frame ever yields a contour. -/
def noMotionOps : CVOps ℕ ℕ :=
  { grayBlur := fun f => f
    threshPipeline := fun _ _ g => g
    findContours := fun _ => []
    applyHeatmap := fun _ f => f
    drawBox := fun _ f => f
    drawPoint := fun _ f => f
    drawMotionText := fun _ f => f }
theorem send_alert_cooldown_unchanged {φ : Type} (s : EmailAlertSystem φ)
    (now : ℚ) (ty : String) (fr : Option φ) (msg : String) :
    (EmailAlertSystem.send_alert s now ty fr msg).alert_cooldown = s.alert_cooldown := by
  unfold EmailAlertSystem.send_alert
  by_cases he : s.enabled <;> by_cases hc : now - s.last_alert_time < s.alert_cooldown <;>
    simp [he, hc]

theorem runCalls_cooldown_unchanged {φ : Type} (s : EmailAlertSystem φ)
    (calls : List (ℚ × String × Option φ × String)) :
    (EmailAlertSystem.runCalls s calls).alert_cooldown = s.alert_cooldown := by
  induction calls generalizing s with
  | nil => rfl
  | cons c cs ih =>
      simp only [EmailAlertSystem.runCalls, List.foldl_cons] at *
      rw [ih, send_alert_cooldown_unchanged]

theorem send_alert_inv {φ : Type} (s : EmailAlertSystem φ)
    (now : ℚ) (ty : String) (fr : Option φ) (msg : String)
    (hc0 : 0 ≤ s.alert_cooldown)
    (h : alertInv s) : alertInv (EmailAlertSystem.send_alert s now ty fr msg) := by
  obtain ⟨hp, hle⟩ := h
  unfold EmailAlertSystem.send_alert
  by_cases he : s.enabled
  · by_cases hc : now - s.last_alert_time < s.alert_cooldown
    · simp only [he, not_true_eq_false, if_false, hc, if_true]
      exact ⟨hp, hle⟩
    · push_neg at hc
      simp only [he, not_true_eq_false, if_false, if_neg (not_lt.mpr hc)]
      constructor
      · rw [List.pairwise_append]
        refine ⟨hp, List.pairwise_singleton _ _, ?_⟩
        intro a ha b hb
        simp only [List.mem_singleton] at hb
        subst hb
        simp only [alertGap]
        have := hle a ha
        linarith
      · intro a ha
        simp only [List.mem_append, List.mem_singleton] at ha
        rcases ha with ha | ha
        · have := hle a ha
          simp only []
          linarith
        · subst ha
          simp
  · simp only [he, not_false_eq_true, if_true]
    exact ⟨hp, hle⟩

theorem runCalls_inv {φ : Type} (s : EmailAlertSystem φ)
    (calls : List (ℚ × String × Option φ × String))
    (hc0 : 0 ≤ s.alert_cooldown)
    (h : alertInv s) : alertInv (EmailAlertSystem.runCalls s calls) := by
  induction calls generalizing s with
  | nil => simpa [EmailAlertSystem.runCalls] using h
  | cons c cs ih =>
      have hc1 : 0 ≤ (EmailAlertSystem.send_alert s c.1 c.2.1 c.2.2.1 c.2.2.2).alert_cooldown := by
        rwa [send_alert_cooldown_unchanged]
      simpa [EmailAlertSystem.runCalls] using
        ih _ hc1 (send_alert_inv s c.1 c.2.1 c.2.2.1 c.2.2.2 hc0 h)

/-- C1: invoking `start_recording` while a session is already open
(`recording` is true) starts no second session, returns `None`, and leaves
the stamped reason, file path and start timestamp unchanged; likewise
`handle_event_recording` fired while a session is open changes neither
recorder, so at most one recording session is ever open. -/
theorem C1_single_session {α : Type}
    (w : Option Bool) (cr : Option String) (t0 : Option ℚ) (rr : Option String)
    (now : ℚ) (stamp reason event_type : String) (writer_opens : Bool)
    (record_on_event auto_record : Bool) (ar : AudioRecorder α) :
    VideoRecorder.start_recording ⟨true, w, cr, t0, rr⟩ now stamp reason writer_opens
        = (none, ⟨true, w, cr, t0, rr⟩) ∧
      handle_event_recording record_on_event auto_record
          ⟨true, w, cr, t0, rr⟩ ar now stamp event_type writer_opens
        = (⟨true, w, cr, t0, rr⟩, ar) := by
  constructor
  · simp [VideoRecorder.start_recording]
  · simp [handle_event_recording]

/-- C6: after `audio_callback` processes a block, `noise_detected` is true
iff the block's loudness (`np.linalg.norm` of the samples times the fixed
gain factor 10) strictly exceeds the threshold, whatever the prior state;
and blocks of loudness 0.05, 0.2, 0.05 against threshold 0.1 yield the
flags false, true, false. -/
theorem C6_noise_flag_iff {β : Type} (norm : β → ℚ) (s : NoiseDetector β) (b : β) :
    ((NoiseDetector.audio_callback norm s b).noise_detected = true ↔
        norm b * 10 > s.threshold) ∧
      (NoiseDetector.runBlocks (fun x : ℚ => x) (NoiseDetector.init ℚ (1/10))
          [1/200, 1/50, 1/200]).1 = [false, true, false] := by
  constructor
  · unfold NoiseDetector.audio_callback
    by_cases h : norm b * 10 > s.threshold <;> simp [h]
  · norm_num [NoiseDetector.runBlocks, NoiseDetector.audio_callback, NoiseDetector.init]

/-- C7: the very first `detect` call establishes the background reference
and returns no motion (false, zero area, empty box list), and after any
`detect` call the reference frame is non-null. -/
theorem C7_first_call {γ φ : Type} (ops : CVOps γ φ) (now : ℚ)
    (thr minA : ℚ) (md : Bool) (cnt : ℕ) (hist : List ℚ) (tot : ℚ)
    (regs : List (ℤ × ℤ)) (frame : φ) (hm : Bool) (s : MotionDetector γ) :
    MotionDetector.detect ops now ⟨thr, minA, none, md, cnt, hist, tot, regs⟩ frame hm
        = (⟨false, 0, frame, []⟩,
            ⟨thr, minA, some (ops.grayBlur frame), md, cnt, hist, tot, regs⟩) ∧
      ((MotionDetector.detect ops now s frame hm).2.first_frame).isSome = true := by
  constructor
  · rfl
  · obtain ⟨sthr, sminA, sff, smd, scnt, shist, stot, sregs⟩ := s
    cases sff with
    | none => rfl
    | some ff =>
        simp only [MotionDetector.detect]
        split <;> split <;> simp

/-- C9: `detect` with heatmap rendering enabled and disabled returns the
same detected flag, total area and bounding-box list, and leaves the
detector in the same state — the overlay affects only the annotated
output frame. -/
theorem C9_heatmap_noninterference {γ φ : Type} (ops : CVOps γ φ) (now : ℚ)
    (s : MotionDetector γ) (frame : φ) :
    (MotionDetector.detect ops now s frame true).1.detected
        = (MotionDetector.detect ops now s frame false).1.detected ∧
      (MotionDetector.detect ops now s frame true).1.total_area
        = (MotionDetector.detect ops now s frame false).1.total_area ∧
      (MotionDetector.detect ops now s frame true).1.boxes
        = (MotionDetector.detect ops now s frame false).1.boxes ∧
      (MotionDetector.detect ops now s frame true).2
        = (MotionDetector.detect ops now s frame false).2 := by
  obtain ⟨sthr, sminA, sff, smd, scnt, shist, stot, sregs⟩ := s
  cases sff with
  | none => exact ⟨rfl, rfl, rfl, rfl⟩
  | some ff => exact ⟨rfl, rfl, rfl, rfl⟩

/-- C10: `get_current_noise_level` is total: on an empty FIFO it returns 0
with the queue unchanged, and on a non-empty FIFO it removes exactly the
front block and returns that block's loudness, so the consumed block is no
longer in the queue. -/
theorem C10_noise_level_pop {β : Type} (b : β) (v : ℚ) (rest : List (β × ℚ))
    (thr : ℚ) (nd : Bool) (nc : ℕ) :
    NoiseDetector.get_current_noise_level (⟨thr, nd, nc, []⟩ : NoiseDetector β)
        = (0, ⟨thr, nd, nc, []⟩) ∧
      NoiseDetector.get_current_noise_level (⟨thr, nd, nc, (b, v) :: rest⟩ : NoiseDetector β)
        = (v, ⟨thr, nd, nc, rest⟩) ∧
      ((NoiseDetector.get_current_noise_level
            (⟨thr, nd, nc, (b, v) :: rest⟩ : NoiseDetector β)).2.audio_queue).length + 1
        = ((b, v) :: rest).length := by
  refine ⟨rfl, rfl, ?_⟩
  simp [NoiseDetector.get_current_noise_level]

theorem detect_some_detected {γ φ : Type} (ops : CVOps γ φ) (now : ℚ)
    (thr minA : ℚ) (ff : γ) (md : Bool) (cnt : ℕ) (hist : List ℚ) (tot : ℚ)
    (regs : List (ℤ × ℤ)) (frame : φ) (hm : Bool) :
    (MotionDetector.detect ops now ⟨thr, minA, some ff, md, cnt, hist, tot, regs⟩
        frame hm).1.detected
      = ! ((ops.findContours (ops.threshPipeline thr ff (ops.grayBlur frame))).filter
            (fun c => ¬ c.area < minA)).isEmpty := rfl

theorem detect_some_area {γ φ : Type} (ops : CVOps γ φ) (now : ℚ)
    (thr minA : ℚ) (ff : γ) (md : Bool) (cnt : ℕ) (hist : List ℚ) (tot : ℚ)
    (regs : List (ℤ × ℤ)) (frame : φ) (hm : Bool) :
    (MotionDetector.detect ops now ⟨thr, minA, some ff, md, cnt, hist, tot, regs⟩
        frame hm).1.total_area
      = (((ops.findContours (ops.threshPipeline thr ff (ops.grayBlur frame))).filter
            (fun c => ¬ c.area < minA)).map Contour.area).sum := rfl

theorem detect_some_boxes {γ φ : Type} (ops : CVOps γ φ) (now : ℚ)
    (thr minA : ℚ) (ff : γ) (md : Bool) (cnt : ℕ) (hist : List ℚ) (tot : ℚ)
    (regs : List (ℤ × ℤ)) (frame : φ) (hm : Bool) :
    (MotionDetector.detect ops now ⟨thr, minA, some ff, md, cnt, hist, tot, regs⟩
        frame hm).1.boxes
      = ((ops.findContours (ops.threshPipeline thr ff (ops.grayBlur frame))).filter
            (fun c => ¬ c.area < minA)).map Contour.box := rfl

theorem filter_not_lt_eq_filter_le (minA : ℚ) (l : List Contour) :
    (l.filter fun c => ¬ c.area < minA) = l.filter fun c => minA ≤ c.area := by
  apply List.filter_congr
  intro x _
  rw [decide_eq_decide]
  exact not_lt

/-- C5: when the reference frame is established, `detect` reports motion
iff some extracted contour has area ≥ `min_area`; the returned total area
is the sum of the qualifying contours' areas and the returned boxes are
exactly the qualifying contours' bounding boxes; concretely, a single
40×40 contour of area 1600 against `min_area = 500` yields motion with one
box and total area 1600. -/
theorem C5_qualifying_regions {γ φ : Type} (ops : CVOps γ φ) (now : ℚ)
    (thr minA : ℚ) (ff : γ) (md : Bool) (cnt : ℕ) (hist : List ℚ) (tot : ℚ)
    (regs : List (ℤ × ℤ)) (frame : φ) (hm : Bool) :
    (((MotionDetector.detect ops now ⟨thr, minA, some ff, md, cnt, hist, tot, regs⟩
          frame hm).1.detected = true) ↔
        ∃ c ∈ ops.findContours (ops.threshPipeline thr ff (ops.grayBlur frame)),
          minA ≤ c.area) ∧
      (MotionDetector.detect ops now ⟨thr, minA, some ff, md, cnt, hist, tot, regs⟩
          frame hm).1.total_area
        = (((ops.findContours (ops.threshPipeline thr ff (ops.grayBlur frame))).filter
              (fun c => minA ≤ c.area)).map Contour.area).sum ∧
      (MotionDetector.detect ops now ⟨thr, minA, some ff, md, cnt, hist, tot, regs⟩
          frame hm).1.boxes
        = ((ops.findContours (ops.threshPipeline thr ff (ops.grayBlur frame))).filter
              (fun c => minA ≤ c.area)).map Contour.box ∧
      (MotionDetector.detect scenarioOps 1
          (MotionDetector.detect scenarioOps 0 (MotionDetector.init ℕ 25 500) 0 true).2
          1 true).1
        = ⟨true, 1600, 1, [(10, 10, 40, 40)]⟩ := by
  refine ⟨?_, ?_, ?_, ?_⟩
  · rw [detect_some_detected, filter_not_lt_eq_filter_le]
    simp [List.isEmpty_iff, List.filter_eq_nil_iff]
  · rw [detect_some_area, filter_not_lt_eq_filter_le]
  · rw [detect_some_boxes, filter_not_lt_eq_filter_le]
  · norm_num [MotionDetector.detect, MotionDetector.init, scenarioOps,
      trimRegions, boxCentroid]

/-- C8 counterexample: after the first call establishes the reference from
frame 0, a second call that reports no motion nevertheless replaces the
background reference (the code refreshes whenever `motion_count % 30 == 0`,
and the count is still 0), contradicting the claim that a no-motion call
never replaces the reference. -/
theorem C8_counterexample :
    ((MotionDetector.detect noMotionOps 1
          (MotionDetector.detect noMotionOps 0 (MotionDetector.init ℕ 25 500) 0 true).2
          1 true).1.detected = false) ∧
      (MotionDetector.detect noMotionOps 0
          (MotionDetector.init ℕ 25 500) 0 true).2.first_frame = some 0 ∧
      (MotionDetector.detect noMotionOps 1
          (MotionDetector.detect noMotionOps 0 (MotionDetector.init ℕ 25 500) 0 true).2
          1 true).2.first_frame = some 1 :=
  ⟨rfl, rfl, rfl⟩

/-- C8 amended: after the initial establishment, a `detect` call replaces
the background reference exactly when the cumulative motion-event count at
the end of the call (incremented when the call reports motion) is a
multiple of 30 — so a motion call refreshes exactly when the new count
reaches a multiple of 30, and a no-motion call also refreshes whenever the
count stands at a multiple of 30 (in particular on every no-motion call
before the first motion event). -/
theorem C8_amended_refresh {γ φ : Type} (ops : CVOps γ φ) (now : ℚ)
    (thr minA : ℚ) (ff : γ) (md : Bool) (cnt : ℕ) (hist : List ℚ) (tot : ℚ)
    (regs : List (ℤ × ℤ)) (frame : φ) (hm : Bool) :
    (MotionDetector.detect ops now ⟨thr, minA, some ff, md, cnt, hist, tot, regs⟩
        frame hm).2.first_frame
      = if (if (MotionDetector.detect ops now ⟨thr, minA, some ff, md, cnt, hist, tot,
                  regs⟩ frame hm).1.detected
            then cnt + 1 else cnt) % 30 = 0
        then some (ops.grayBlur frame) else some ff := by
  rw [detect_some_detected]
  simp only [MotionDetector.detect]
  generalize ((ops.findContours (ops.threshPipeline thr ff (ops.grayBlur frame))).filter
      (fun c => ¬ c.area < minA)) = q
  cases q with
  | nil => by_cases h2 : cnt % 30 = 0 <;> simp [h2]
  | cons c cs => by_cases h2 : (cnt + 1) % 30 = 0 <;> simp [h2]

theorem stop_recording_clears_flag (s : VideoRecorder) (now : ℚ) :
    (VideoRecorder.stop_recording s now).2.recording = false := by
  obtain ⟨rec, w, cr, t0, rr⟩ := s
  unfold VideoRecorder.stop_recording
  cases cr <;> simp

/-- C2: with a session open in non-continuous mode, the inactivity check
stops the recording exactly when the elapsed times since the last motion
event and since the last noise event both exceed the timeout; a session
still within the timeout of the last motion event is left untouched. -/
theorem C2_inactivity_timeout {α : Type} (timeout : ℚ) (lm ln : Option ℚ) (now : ℚ)
    (w : Option Bool) (cr : Option String) (t0 : Option ℚ) (rr : Option String)
    (ar : AudioRecorder α) (stamp : String) (save_ok : Bool) :
    (check_recording_timeout false timeout lm ln now ⟨true, w, cr, t0, rr⟩ ar stamp save_ok
        = if now - lm.getD 0 > timeout ∧ now - ln.getD 0 > timeout
          then ((VideoRecorder.stop_recording ⟨true, w, cr, t0, rr⟩ now).2,
                (AudioRecorder.stop_recording ar stamp save_ok).2)
          else (⟨true, w, cr, t0, rr⟩, ar)) ∧
      (((check_recording_timeout false timeout lm ln now ⟨true, w, cr, t0, rr⟩ ar stamp
            save_ok).1.recording = false) ↔
        (now - lm.getD 0 > timeout ∧ now - ln.getD 0 > timeout)) ∧
      (now - lm.getD 0 ≤ timeout →
        check_recording_timeout false timeout lm ln now ⟨true, w, cr, t0, rr⟩ ar stamp save_ok
          = (⟨true, w, cr, t0, rr⟩, ar)) := by
  have hmain : check_recording_timeout false timeout lm ln now ⟨true, w, cr, t0, rr⟩ ar
        stamp save_ok
      = if now - lm.getD 0 > timeout ∧ now - ln.getD 0 > timeout
        then ((VideoRecorder.stop_recording ⟨true, w, cr, t0, rr⟩ now).2,
              (AudioRecorder.stop_recording ar stamp save_ok).2)
        else (⟨true, w, cr, t0, rr⟩, ar) := by
    unfold check_recording_timeout
    simp
  refine ⟨hmain, ?_, ?_⟩
  · rw [hmain]
    by_cases h : now - lm.getD 0 > timeout ∧ now - ln.getD 0 > timeout
    · rw [if_pos h]
      simp [stop_recording_clears_flag, h]
    · rw [if_neg h]
      simpa using h
  · intro hle
    rw [hmain, if_neg]
    intro hcon
    exact absurd hcon.1 (not_lt.mpr hle)

/-- C2 witness: with `timeout = 10`, last motion at `t = 100` and the check
run at `t = 105` (within the timeout), the session is left open. -/
theorem C2_inactivity_timeout_witness :
    (check_recording_timeout false 10 (some 100) (some 100) 105
          (⟨true, some true, some "f", some 95, some "motion"⟩ : VideoRecorder)
          (⟨true, []⟩ : AudioRecorder Unit) "s" true
        = if (105 : ℚ) - (some (100 : ℚ)).getD 0 > 10 ∧
              (105 : ℚ) - (some (100 : ℚ)).getD 0 > 10
          then ((VideoRecorder.stop_recording
                  ⟨true, some true, some "f", some 95, some "motion"⟩ 105).2,
                (AudioRecorder.stop_recording (⟨true, []⟩ : AudioRecorder Unit) "s" true).2)
          else (⟨true, some true, some "f", some 95, some "motion"⟩,
                (⟨true, []⟩ : AudioRecorder Unit))) ∧
      (((check_recording_timeout false 10 (some 100) (some 100) 105
            (⟨true, some true, some "f", some 95, some "motion"⟩ : VideoRecorder)
            (⟨true, []⟩ : AudioRecorder Unit) "s" true).1.recording = false) ↔
        ((105 : ℚ) - (some (100 : ℚ)).getD 0 > 10 ∧
          (105 : ℚ) - (some (100 : ℚ)).getD 0 > 10)) ∧
      ((105 : ℚ) - (some (100 : ℚ)).getD 0 ≤ 10 →
        check_recording_timeout false 10 (some 100) (some 100) 105
            (⟨true, some true, some "f", some 95, some "motion"⟩ : VideoRecorder)
            (⟨true, []⟩ : AudioRecorder Unit) "s" true
          = (⟨true, some true, some "f", some 95, some "motion"⟩,
              (⟨true, []⟩ : AudioRecorder Unit))) :=
  C2_inactivity_timeout 10 (some 100) (some 100) 105 (some true) (some "f")
    (some 95) (some "motion") ⟨true, []⟩ "s" true

/-- C3: in any run of `send_alert` calls starting from an empty queue, any
two alerts of the same kind that reach the delivery queue carry timestamps
at least `alert_cooldown` apart; and a call that is dropped by the cooldown
leaves the whole state — in particular `last_alert_time`, the reference
point of the cooldown — unchanged, so merely attempted alerts never move
the cooldown clock. -/
theorem C3_sent_alert_spacing {φ : Type} (en : Bool) (c l : ℚ)
    (calls : List (ℚ × String × Option φ × String)) (k : String)
    (hc : 0 ≤ c) :
    ((EmailAlertSystem.runCalls ⟨en, [], c, l⟩ calls).alert_queue.filter
        (fun a => a.type == k)).Pairwise (alertGap c) ∧
      ∀ (s : EmailAlertSystem φ) (now : ℚ) (ty : String) (fr : Option φ) (msg : String),
        now - s.last_alert_time < s.alert_cooldown →
        EmailAlertSystem.send_alert s now ty fr msg = s := by
  constructor
  · have h0 : alertInv (⟨en, [], c, l⟩ : EmailAlertSystem φ) := by
      constructor
      · exact List.Pairwise.nil
      · intro a ha
        simp at ha
    have h := runCalls_inv ⟨en, [], c, l⟩ calls hc h0
    have hcool := runCalls_cooldown_unchanged (⟨en, [], c, l⟩ : EmailAlertSystem φ) calls
    have h1 := h.1
    rw [hcool] at h1
    exact List.Pairwise.sublist (List.filter_sublist _) h1
  · intro s now ty fr msg hlt
    unfold EmailAlertSystem.send_alert
    by_cases he : s.enabled <;> simp [he, hlt]

/-- C3 witness: two motion alerts at t = 100 and t = 101 with cooldown 60. -/
theorem C3_sent_alert_spacing_witness :
    (0 : ℚ) ≤ 60 ∧
      (((EmailAlertSystem.runCalls (⟨true, [], 60, 0⟩ : EmailAlertSystem Unit)
            [(100, "motion", none, ""), (101, "motion", none, "")]).alert_queue.filter
          (fun a => a.type == "motion")).Pairwise (alertGap 60) ∧
        ∀ (s : EmailAlertSystem Unit) (now : ℚ) (ty : String) (fr : Option Unit)
          (msg : String),
          now - s.last_alert_time < s.alert_cooldown →
          EmailAlertSystem.send_alert s now ty fr msg = s) :=
  ⟨by norm_num,
    C3_sent_alert_spacing true 60 0 [(100, "motion", none, ""), (101, "motion", none, "")]
      "motion" (by norm_num)⟩

/-- C4: a `send_alert` call enqueues iff the system is enabled and at
least `alert_cooldown` has elapsed since the last successfully scheduled
alert (otherwise the state is returned unchanged — a silent drop); in any
run from an empty queue all scheduled alerts carry timestamps pairwise at
least `alert_cooldown` apart; and two motion alerts 1 second apart under
`alert_cooldown = 60` produce exactly one queued delivery attempt. -/
theorem C4_cooldown_gate {φ : Type} (s : EmailAlertSystem φ) (now : ℚ)
    (ty : String) (fr : Option φ) (msg : String)
    (en : Bool) (c l : ℚ) (calls : List (ℚ × String × Option φ × String))
    (hc : 0 ≤ c) :
    (EmailAlertSystem.send_alert s now ty fr msg
        = if s.enabled ∧ s.alert_cooldown ≤ now - s.last_alert_time
          then { s with alert_queue := s.alert_queue ++ [⟨ty, fr, msg, now⟩],
                        last_alert_time := now }
          else s) ∧
      ((EmailAlertSystem.runCalls ⟨en, [], c, l⟩ calls).alert_queue.Pairwise (alertGap c)) ∧
      (EmailAlertSystem.runCalls (⟨true, [], 60, 0⟩ : EmailAlertSystem φ)
          [(100, "motion", none, ""), (101, "motion", none, "")]).alert_queue.length
        = 1 := by
  refine ⟨?_, ?_, ?_⟩
  · unfold EmailAlertSystem.send_alert
    by_cases he : s.enabled
    · by_cases hlt : now - s.last_alert_time < s.alert_cooldown
      · rw [if_neg (by simp [he]), if_pos hlt, if_neg]
        intro hcon
        exact absurd hcon.2 (not_le.mpr hlt)
      · rw [if_neg (by simp [he]), if_neg hlt, if_pos ⟨he, not_lt.mp hlt⟩]
    · rw [if_pos (by simp [he]), if_neg]
      intro hcon
      exact absurd hcon.1 he
  · have h0 : alertInv (⟨en, [], c, l⟩ : EmailAlertSystem φ) := by
      constructor
      · exact List.Pairwise.nil
      · intro a ha
        simp at ha
    have h := runCalls_inv ⟨en, [], c, l⟩ calls hc h0
    have hcool := runCalls_cooldown_unchanged (⟨en, [], c, l⟩ : EmailAlertSystem φ) calls
    have h1 := h.1
    rwa [hcool] at h1
  · norm_num [EmailAlertSystem.runCalls, EmailAlertSystem.send_alert]

/-- C4 witness: a disabled system drops an alert, and the scenario run
with cooldown 60 schedules exactly one of the two motion alerts. -/
theorem C4_cooldown_gate_witness :
    (0 : ℚ) ≤ 60 ∧
      ((EmailAlertSystem.send_alert (⟨false, [], 60, 0⟩ : EmailAlertSystem Unit) 100
            "noise" none ""
          = if (⟨false, [], 60, 0⟩ : EmailAlertSystem Unit).enabled ∧
                (⟨false, [], 60, 0⟩ : EmailAlertSystem Unit).alert_cooldown ≤
                  100 - (⟨false, [], 60, 0⟩ : EmailAlertSystem Unit).last_alert_time
            then { (⟨false, [], 60, 0⟩ : EmailAlertSystem Unit) with
                    alert_queue :=
                      (⟨false, [], 60, 0⟩ : EmailAlertSystem Unit).alert_queue ++
                        [⟨"noise", none, "", 100⟩],
                    last_alert_time := 100 }
            else (⟨false, [], 60, 0⟩ : EmailAlertSystem Unit)) ∧
        ((EmailAlertSystem.runCalls (⟨true, [], 60, 0⟩ : EmailAlertSystem Unit)
            [(0, "motion", none, "x")]).alert_queue.Pairwise (alertGap 60)) ∧
        (EmailAlertSystem.runCalls (⟨true, [], 60, 0⟩ : EmailAlertSystem Unit)
            [(100, "motion", none, ""), (101, "motion", none, "")]).alert_queue.length
          = 1) :=
  ⟨by norm_num,
    C4_cooldown_gate (⟨false, [], 60, 0⟩ : EmailAlertSystem Unit) 100 "noise" none ""
      true 60 0 [(0, "motion", none, "x")] (by norm_num)⟩
